import Mathlib

/-!
Verification development for the `youversion` Python SDK
(`src/youversion/core/{result,domain_errors,errors,http,client}.py` and the
resource model modules). The Python code is shallowly embedded: each endpoint
method becomes a Lean function from its arguments and the behaviour of the
network to an `Except` value, where the `.error` channel models a raised
Python exception and the `.ok` channel models the returned `Result` value.
One source fact shapes the synchronous facade: `SyncHTTPAdapter.get` and
`SyncHTTPAdapter.close` are declared `async def`, and `YouVersionClient`
calls them without `await`, so the adapter bodies never run there; the sync
facade methods are embedded accordingly (see `UnawaitedCoroutine`).
-/

set_option maxRecDepth 4096

namespace YouVersion

/-- Minimal JSON value model for server response bodies (the payload of
`response.json()`). Numbers are modelled as rationals. -/
inductive Json where
  | null
  | bool (b : Bool)
  | num (n : Rat)
  | str (s : String)
  | arr (items : List Json)
  | obj (fields : List (String × Json))

/-- First binding of a key in a JSON object field list. -/
def Json.lookupField : List (String × Json) → String → Option Json
  | [], _ => none
  | (k, v) :: rest, key => if k = key then some v else Json.lookupField rest key

/-- Field access on a JSON object; `none` for non-objects and absent keys. -/
def Json.getField : Json → String → Option Json
  | .obj fields, key => Json.lookupField fields key
  | _, _ => none

/-- Required string field: present string value, else parse failure. -/
def Json.getStr (j : Json) (key : String) : Option String :=
  match j.getField key with
  | some (.str s) => some s
  | _ => none

/-- Required integer field (a JSON number with denominator 1). -/
def Json.getInt (j : Json) (key : String) : Option Int :=
  match j.getField key with
  | some (.num q) => if q.den = 1 then some q.num else none
  | _ => none

/-- Required number field. -/
def Json.getNum (j : Json) (key : String) : Option Rat :=
  match j.getField key with
  | some (.num q) => some q
  | _ => none

/-- Optional string field: absent, null or non-string values collapse to
`none`, the pydantic default for `str | None = None` fields. -/
def Json.getOptStr (j : Json) (key : String) : Option String :=
  match j.getField key with
  | some (.str s) => some s
  | _ => none

/-- Optional integer field, defaulting to `none` like `int | None = None`. -/
def Json.getOptInt (j : Json) (key : String) : Option Int :=
  match j.getField key with
  | some (.num q) => if q.den = 1 then some q.num else none
  | _ => none

/-- An HTTP response as the adapter sees it: the status code, the value of the
`Retry-After` header when the server sent one (the only header the code
reads), and the JSON body returned by `response.json()`. -/
structure HTTPResponse where
  status_code : Nat
  retry_after_header : Option String := none
  body : Json := Json.null

/-- The enumerated `resource` kinds of `NotFoundError`
(`core/domain_errors.py`, a `Literal[...]` type). -/
inductive NotFoundResource where
  | version | book | chapter | verse | passage | language | highlight
deriving DecidableEq, Repr

/-- Domain error `NotFoundError` from `core/domain_errors.py`. -/
structure NotFoundError where
  resource : NotFoundResource
  identifier : String
  message : String
deriving DecidableEq, Repr

/-- Domain error `ValidationError` from `core/domain_errors.py`. -/
structure ValidationError where
  field : String
  reason : String
deriving DecidableEq, Repr

/-- Universe of error payloads a call can surface on either channel: the two
domain error values from `core/domain_errors.py`, the four transport
exception classes from `core/errors.py`, plus the two external exceptions
that can escape the SDK code: `ValueError` raised by the builtin `float` on a
non-numeric `Retry-After` header, and the schema library's validation
exception raised by `model_validate` on a non-conforming body (its payload
here is the name of the model being validated), and the `AttributeError`
Python raises when the synchronous facade accesses `.status_code` / `.json`
on the unawaited coroutine returned by its `async def` adapter. Using one
universe for both channels keeps the dual-channel propagation policy a
provable property rather than a typing artefact. -/
inductive ErrorValue where
  | notFound (e : NotFoundError)
  | validation (e : ValidationError)
  | networkError (message : String)
  | authenticationError (message : String)
  | rateLimitError (message : String) (retry_after : Option Rat)
  | serverError (message : String) (status_code : Nat)
  | valueError (message : String)
  | validationException (model : String)
  | attributeError (message : String)
deriving DecidableEq, Repr

/-- Is this one of the two domain error values (`DomainError` union)? -/
def ErrorValue.isDomain : ErrorValue → Bool
  | .notFound _ => true
  | .validation _ => true
  | _ => false

/-- Is this one of the four transport exception classes
(`NetworkError`, `AuthenticationError`, `RateLimitError`, `ServerError`)? -/
def ErrorValue.isTransport : ErrorValue → Bool
  | .networkError _ => true
  | .authenticationError _ => true
  | .rateLimitError _ _ => true
  | .serverError _ _ => true
  | _ => false

/-- Is this a `RateLimitError`? -/
def ErrorValue.isRateLimit : ErrorValue → Bool
  | .rateLimitError _ _ => true
  | _ => false

/-- The `Result` type of `core/result.py`: exactly one of `Ok(value)` or
`Err(error)`. -/
inductive Result (T : Type) (E : Type) where
  | Ok (value : T)
  | Err (error : E)
deriving DecidableEq, Repr

/-- `is_ok` from `core/result.py`: `isinstance(result, Ok)`. -/
def is_ok {T E : Type} : Result T E → Bool
  | .Ok _ => true
  | .Err _ => false

/-- `is_err` from `core/result.py`: `isinstance(result, Err)`. -/
def is_err {T E : Type} : Result T E → Bool
  | .Ok _ => false
  | .Err _ => true

/-- Characters before the first dot and, when a dot occurs, the characters
after it. -/
def splitOnDot : List Char → List Char × Option (List Char)
  | [] => ([], none)
  | c :: rest =>
    if c = '.' then ([], some rest)
    else
      let (before, after) := splitOnDot rest
      (c :: before, after)

/-- Decimal value of a digit list. -/
def digitsToNat (cs : List Char) : Nat :=
  cs.foldl (fun a c => 10 * a + (c.toNat - 48)) 0

/-- Models the Python builtin `float` on plain decimal strings (optional
sign, digits, optional single dot): `some` the parsed rational, `none` when
the conversion raises `ValueError`. Exponents, underscores and `inf`/`nan`
spellings are not modelled; `Retry-After` carries delta-seconds. -/
def pyFloat (s : String) : Option Rat :=
  let cs := s.toList
  let (neg, body) :=
    match cs with
    | '-' :: t => (true, t)
    | '+' :: t => (false, t)
    | t => (false, t)
  let (ip, fp) := splitOnDot body
  let valid :=
    match fp with
    | none => !ip.isEmpty && ip.all Char.isDigit
    | some f => !(ip.isEmpty && f.isEmpty) && ip.all Char.isDigit && f.all Char.isDigit
  if valid then
    let q : Rat :=
      (digitsToNat ip : Rat) +
        (match fp with
         | none => 0
         | some f => (digitsToNat f : Rat) / ((10 : Rat) ^ f.length))
    some (if neg then -q else q)
  else none

/-- The 429 branch's `float(retry_after) if retry_after else None`
(`http.py`): the header being `None` or the empty string (falsy) yields a
null retry hint; otherwise `float` either parses the header or raises
`ValueError`, which this models as the `.error` case carrying the
exception's message. -/
def retryAfterOf : Option String → Except String (Option Rat)
  | none => .ok none
  | some s =>
    if s.isEmpty then .ok none
    else
      match pyFloat s with
      | some q => .ok (some q)
      | none => .error ("could not convert string to float: " ++ s)

/-- Outcome of handing one GET request to the underlying `httpx` engine:
one of the three request exception classes the adapter catches, or a
delivered response. -/
inductive NetworkOutcome where
  | timeoutException (message : String)
  | connectError (message : String)
  | requestError (message : String)
  | response (r : HTTPResponse)

/-- Query parameters of a request, in insertion order, values rendered to
strings. `none` models passing `params=None`. -/
def Params := Option (List (String × String))

/-- The behaviour of the network during a call: what the `httpx` engine does
for a given path and query. -/
def Network := String → Params → NetworkOutcome

/-- Network environment that delivers the same response to every request. -/
def constNet (r : HTTPResponse) : Network := fun _ _ => NetworkOutcome.response r

/-- `AsyncHTTPAdapter._check_error_status` (`http.py`): raise for 401, 429
and 5xx; otherwise return the response to the caller untouched. -/
def AsyncHTTPAdapter.check_error_status (response : HTTPResponse) : Except ErrorValue Unit :=
  if response.status_code = 401 then
    .error (.authenticationError "Invalid or missing API key")
  else if response.status_code = 429 then
    match retryAfterOf response.retry_after_header with
    | .ok retry_after => .error (.rateLimitError "Rate limit exceeded" retry_after)
    | .error m => .error (.valueError m)
  else if response.status_code ≥ 500 then
    .error (.serverError ("Server error: " ++ toString response.status_code) response.status_code)
  else
    .ok ()

/-- `AsyncHTTPAdapter.get` (`http.py`): perform the request, translate the
three `httpx` request exceptions into `NetworkError`, then run the status
check and return the response. -/
def AsyncHTTPAdapter.get (network : Network) (path : String) (params : Params) :
    Except ErrorValue HTTPResponse :=
  match network path params with
  | .timeoutException m => .error (.networkError ("Request timed out: " ++ m))
  | .connectError m => .error (.networkError ("Connection failed: " ++ m))
  | .requestError m => .error (.networkError ("Request failed: " ++ m))
  | .response r =>
    match AsyncHTTPAdapter.check_error_status r with
    | .error e => .error e
    | .ok _ => .ok r

/-- `SyncHTTPAdapter._check_error_status` (`http.py`), a textual duplicate of
the async variant; it runs only inside the adapter coroutine body. -/
def SyncHTTPAdapter.check_error_status (response : HTTPResponse) : Except ErrorValue Unit :=
  if response.status_code = 401 then
    .error (.authenticationError "Invalid or missing API key")
  else if response.status_code = 429 then
    match retryAfterOf response.retry_after_header with
    | .ok retry_after => .error (.rateLimitError "Rate limit exceeded" retry_after)
    | .error m => .error (.valueError m)
  else if response.status_code ≥ 500 then
    .error (.serverError ("Server error: " ++ toString response.status_code) response.status_code)
  else
    .ok ()

/-- `SyncHTTPAdapter.get` (`http.py`), a textual duplicate of the async
variant modulo the blocking call. The method is declared `async def`, so
this definition is the body of the coroutine it returns — it executes only
when awaited, and the synchronous facade never awaits it (its calls are
modelled by `SyncHTTPAdapter.get_unawaited`). -/
def SyncHTTPAdapter.get (network : Network) (path : String) (params : Params) :
    Except ErrorValue HTTPResponse :=
  match network path params with
  | .timeoutException m => .error (.networkError ("Request timed out: " ++ m))
  | .connectError m => .error (.networkError ("Connection failed: " ++ m))
  | .requestError m => .error (.networkError ("Request failed: " ++ m))
  | .response r =>
    match SyncHTTPAdapter.check_error_status r with
    | .error e => .error e
    | .ok _ => .ok r

/-- `PaginatedResponse` generic paginated container (`bibles/models.py`). -/
structure PaginatedResponse (T : Type) where
  data : List T
  next_page_token : Option String := none
  total_count : Option Int := none
deriving DecidableEq, Repr

/-- Element-wise validation of a JSON array, failing when any element fails,
as the schema library does for a `list[T]` field. -/
def mapValidate {T : Type} (p : Json → Option T) : List Json → Option (List T)
  | [] => some []
  | j :: rest =>
    match p j, mapValidate p rest with
    | some v, some vs => some (v :: vs)
    | _, _ => none

/-- Models the delegated schema validation of `PaginatedResponse[T]`: a
required `data` array whose elements are validated in order by `p`, and the
two optional fields with `None` defaults. -/
def PaginatedResponse.model_validate {T : Type} (p : Json → Option T) (j : Json) :
    Option (PaginatedResponse T) :=
  match j.getField "data" with
  | some (.arr items) =>
    match mapValidate p items with
    | some ds =>
      some { data := ds,
             next_page_token := j.getOptStr "next_page_token",
             total_count := j.getOptInt "total_count" }
    | none => none
  | _ => none

/-- `BibleVersion` record (`bibles/models.py`). -/
structure BibleVersion where
  id : Int
  abbreviation : String
  title : String
  language_tag : String
  copyright_short : Option String := none
  copyright_long : Option String := none
deriving DecidableEq, Repr

/-- Models the delegated schema validation of `BibleVersion`. -/
def BibleVersion.model_validate (j : Json) : Option BibleVersion :=
  match j.getInt "id", j.getStr "abbreviation", j.getStr "title", j.getStr "language_tag" with
  | some id, some ab, some t, some lt =>
    some { id := id, abbreviation := ab, title := t, language_tag := lt,
           copyright_short := j.getOptStr "copyright_short",
           copyright_long := j.getOptStr "copyright_long" }
  | _, _, _, _ => none

/-- `BibleBookIntro` record (`bibles/models.py`). -/
structure BibleBookIntro where
  id : String
  passage_id : String
  title : String
deriving DecidableEq, Repr

/-- Models the delegated schema validation of `BibleBookIntro`. -/
def BibleBookIntro.model_validate (j : Json) : Option BibleBookIntro :=
  match j.getStr "id", j.getStr "passage_id", j.getStr "title" with
  | some id, some pid, some t => some { id := id, passage_id := pid, title := t }
  | _, _, _ => none

/-- `BibleVerse` record (`bibles/models.py`). -/
structure BibleVerse where
  id : String
  passage_id : String
  title : String
deriving DecidableEq, Repr

/-- Models the delegated schema validation of `BibleVerse`. -/
def BibleVerse.model_validate (j : Json) : Option BibleVerse :=
  match j.getStr "id", j.getStr "passage_id", j.getStr "title" with
  | some id, some pid, some t => some { id := id, passage_id := pid, title := t }
  | _, _, _ => none

/-- `BibleChapter` record (`bibles/models.py`). -/
structure BibleChapter where
  id : String
  passage_id : String
  title : String
  verses : Option (List BibleVerse) := none
deriving DecidableEq, Repr

/-- Models the delegated schema validation of `BibleChapter`; the optional
`verses` list collapses to `none` unless present and fully valid. -/
def BibleChapter.model_validate (j : Json) : Option BibleChapter :=
  match j.getStr "id", j.getStr "passage_id", j.getStr "title" with
  | some id, some pid, some t =>
    some { id := id, passage_id := pid, title := t,
           verses :=
             match j.getField "verses" with
             | some (.arr items) => mapValidate BibleVerse.model_validate items
             | _ => none }
  | _, _, _ => none

/-- The `canon` literal of `BibleBook` (`bibles/models.py`). -/
inductive Canon where
  | old_testament | new_testament | deuterocanon
deriving DecidableEq, Repr

/-- Canon literal validation. -/
def Canon.model_validate (j : Json) : Option Canon :=
  match j with
  | .str "old_testament" => some .old_testament
  | .str "new_testament" => some .new_testament
  | .str "deuterocanon" => some .deuterocanon
  | _ => none

/-- `BibleBook` record (`bibles/models.py`). -/
structure BibleBook where
  id : String
  title : String
  full_title : Option String := none
  abbreviation : String
  canon : Canon
  chapters : Option (List BibleChapter) := none
  intro : Option BibleBookIntro := none
deriving DecidableEq, Repr

/-- Models the delegated schema validation of `BibleBook`. -/
def BibleBook.model_validate (j : Json) : Option BibleBook :=
  match j.getStr "id", j.getStr "title", j.getStr "abbreviation",
      (j.getField "canon").bind Canon.model_validate with
  | some id, some t, some ab, some canon =>
    some { id := id, title := t, full_title := j.getOptStr "full_title",
           abbreviation := ab, canon := canon,
           chapters :=
             match j.getField "chapters" with
             | some (.arr items) => mapValidate BibleChapter.model_validate items
             | _ => none,
           intro := (j.getField "intro").bind BibleBookIntro.model_validate }
  | _, _, _, _ => none

/-- `BiblePassage` record (`bibles/models.py`). -/
structure BiblePassage where
  id : String
  content : String
  reference : String
deriving DecidableEq, Repr

/-- Models the delegated schema validation of `BiblePassage`. -/
def BiblePassage.model_validate (j : Json) : Option BiblePassage :=
  match j.getStr "id", j.getStr "content", j.getStr "reference" with
  | some id, some c, some r => some { id := id, content := c, reference := r }
  | _, _, _ => none

/-- `Language` record (`languages/models.py`); the `display_names` dict is
modelled as an ordered key-value list. -/
structure Language where
  id : String
  language : String
  script : Option String := none
  script_name : Option String := none
  aliases : List String := []
  display_names : List (String × String) := []
  scripts : List String := []
  variants : List String := []
  countries : List String := []
  text_direction : String
  writing_population : Int := 0
  speaking_population : Int := 0
  default_bible_id : Option Int := none
deriving DecidableEq, Repr

/-- String-list field with a `[]` default. -/
def Json.getStrList (j : Json) (key : String) : List String :=
  match j.getField key with
  | some (.arr items) =>
    (mapValidate (fun v => match v with | .str s => some s | _ => none) items).getD []
  | _ => []

/-- Key-value validation of a JSON object as a string-valued dict. -/
def strDictOf : List (String × Json) → Option (List (String × String))
  | [] => some []
  | (k, .str s) :: rest => (strDictOf rest).map (fun t => (k, s) :: t)
  | _ => none

/-- String-valued dict field with a `{}` default. -/
def Json.getStrDict (j : Json) (key : String) : List (String × String) :=
  match j.getField key with
  | some (.obj fields) => (strDictOf fields).getD []
  | _ => []

/-- Models the delegated schema validation of `Language`; defaulted fields
fall back to their declared defaults when absent or invalid. -/
def Language.model_validate (j : Json) : Option Language :=
  match j.getStr "id", j.getStr "language", j.getStr "text_direction" with
  | some id, some lang, some dir =>
    some { id := id, language := lang,
           script := j.getOptStr "script",
           script_name := j.getOptStr "script_name",
           aliases := j.getStrList "aliases",
           display_names := j.getStrDict "display_names",
           scripts := j.getStrList "scripts",
           variants := j.getStrList "variants",
           countries := j.getStrList "countries",
           text_direction := dir,
           writing_population := (j.getOptInt "writing_population").getD 0,
           speaking_population := (j.getOptInt "speaking_population").getD 0,
           default_bible_id := j.getOptInt "default_bible_id" }
  | _, _, _ => none

/-- `License` record (`licenses/models.py`); the `agreed_dt` datetime is
modelled as its ISO string form, its parsing being delegated. -/
structure License where
  id : Int
  name : String
  version : Int
  organization_id : String
  html : String
  bible_ids : List Int := []
  uri : Option String := none
  agreed_dt : Option String := none
  yvp_user_id : String
deriving DecidableEq, Repr

/-- Integer-list field with a `[]` default. -/
def Json.getIntList (j : Json) (key : String) : List Int :=
  match j.getField key with
  | some (.arr items) =>
    (mapValidate
        (fun v => match v with
          | .num q => if q.den = 1 then some q.num else none
          | _ => none) items).getD []
  | _ => []

/-- Models the delegated schema validation of `License`. -/
def License.model_validate (j : Json) : Option License :=
  match j.getInt "id", j.getStr "name", j.getInt "version", j.getStr "organization_id",
      j.getStr "html", j.getStr "yvp_user_id" with
  | some id, some n, some ver, some oid, some html, some uid =>
    some { id := id, name := n, version := ver, organization_id := oid, html := html,
           bible_ids := j.getIntList "bible_ids",
           uri := j.getOptStr "uri",
           agreed_dt := j.getOptStr "agreed_dt",
           yvp_user_id := uid }
  | _, _, _, _, _, _ => none

/-- `OrganizationAddress` record (`organizations/models.py`). -/
structure OrganizationAddress where
  formatted_address : String
  place_id : String
  latitude : Rat
  longitude : Rat
  administrative_area_level_1 : String
  locality : String
  country : String
deriving DecidableEq, Repr

/-- Models the delegated schema validation of `OrganizationAddress`. -/
def OrganizationAddress.model_validate (j : Json) : Option OrganizationAddress :=
  match j.getStr "formatted_address", j.getStr "place_id", j.getNum "latitude",
      j.getNum "longitude", j.getStr "administrative_area_level_1",
      j.getStr "locality", j.getStr "country" with
  | some fa, some pid, some lat, some lon, some adm, some loc, some c =>
    some { formatted_address := fa, place_id := pid, latitude := lat, longitude := lon,
           administrative_area_level_1 := adm, locality := loc, country := c }
  | _, _, _, _, _, _, _ => none

/-- `Organization` record (`organizations/models.py`). -/
structure Organization where
  id : String
  parent_organization_id : Option String := none
  name : String
  description : String
  email : Option String := none
  phone : Option String := none
  primary_language : String
  website_url : String
  address : OrganizationAddress
deriving DecidableEq, Repr

/-- Models the delegated schema validation of `Organization`. -/
def Organization.model_validate (j : Json) : Option Organization :=
  match j.getStr "id", j.getStr "name", j.getStr "description",
      j.getStr "primary_language", j.getStr "website_url",
      (j.getField "address").bind OrganizationAddress.model_validate with
  | some id, some n, some d, some pl, some wu, some addr =>
    some { id := id, parent_organization_id := j.getOptStr "parent_organization_id",
           name := n, description := d,
           email := j.getOptStr "email", phone := j.getOptStr "phone",
           primary_language := pl, website_url := wu, address := addr }
  | _, _, _, _, _, _ => none

/-- `VerseOfTheDay` record (`votd/models.py`). -/
structure VerseOfTheDay where
  day : Int
  passage_id : String
deriving DecidableEq, Repr

/-- Models the delegated schema validation of `VerseOfTheDay`. -/
def VerseOfTheDay.model_validate (j : Json) : Option VerseOfTheDay :=
  match j.getInt "day", j.getStr "passage_id" with
  | some d, some pid => some { day := d, passage_id := pid }
  | _, _ => none

/-- State of the underlying `httpx` client owned by an adapter. -/
structure HttpxClient where
  is_closed : Bool
deriving DecidableEq, Repr

/-- A freshly constructed `httpx` client. -/
def HttpxClient.fresh : HttpxClient := { is_closed := false }

/-- Models the external `httpx` `Client.close` / `AsyncClient.aclose`: tears
the transport down when the client is still open and is a guarded no-op on an
already-closed client; it never raises. The second component counts the
transport teardowns the call performed. -/
def httpxClose (c : HttpxClient) : HttpxClient × Nat :=
  if c.is_closed then (c, 0) else ({ is_closed := true }, 1)

/-- `AsyncHTTPAdapter.close` (`http.py`): `await self._client.aclose()`. -/
def AsyncHTTPAdapter.close (c : HttpxClient) : HttpxClient × Nat := httpxClose c

/-- `SyncHTTPAdapter.close` (`http.py`): `self._client.close()`. Declared
`async def`: this is the body of the teardown coroutine, which runs only
when awaited — and `YouVersionClient.close` never awaits it. -/
def SyncHTTPAdapter.close (c : HttpxClient) : HttpxClient × Nat := httpxClose c

/-- `YouVersionClient.close` (`client.py`): `self._http.close()` calls the
`async def` `SyncHTTPAdapter.close` without `await`; the returned teardown
coroutine is discarded unstarted, so the httpx close never runs: the client
state is unchanged and zero transport teardowns are performed. The call
itself returns normally. -/
def YouVersionClient.close (c : HttpxClient) : HttpxClient × Nat := (c, 0)

/-- `AsyncYouVersionClient.close` (`client.py`): delegates to the adapter. -/
def AsyncYouVersionClient.close (c : HttpxClient) : HttpxClient × Nat := AsyncHTTPAdapter.close c

/-- `str(b).lower()` on a Python bool. -/
def pyBoolStr (b : Bool) : String := if b then "true" else "false"

/-- The `Literal["text", "html"]` passage format parameter. -/
inductive PassageFormat where
  | text | html
deriving DecidableEq, Repr

/-- Rendering of the format parameter into the query. -/
def PassageFormat.toParam : PassageFormat → String
  | .text => "text"
  | .html => "html"

/-- The unstarted coroutine Python returns when an `async def` function is
called without `await`: it records the call, but its body has not run and no
request has been made. -/
structure UnawaitedCoroutine where
  path : String
  params : Params

/-- Every `self._http.get(...)` call in the synchronous facade (`client.py`)
invokes `SyncHTTPAdapter.get`, which is declared `async def` (`http.py`),
without `await`: the call returns an unstarted coroutine and touches neither
the network nor the adapter body. -/
def SyncHTTPAdapter.get_unawaited (_network : Network) (path : String) (params : Params) :
    UnawaitedCoroutine :=
  { path := path, params := params }

/-- Python attribute access on a coroutine object (`response.status_code`,
`response.json`): coroutine objects have no such attributes, so the access
raises `AttributeError`. -/
def UnawaitedCoroutine.getattr {T : Type} (_c : UnawaitedCoroutine) (attr : String) :
    Except ErrorValue T :=
  .error (.attributeError ("coroutine object has no attribute " ++ attr))

/-- `YouVersionClient.get_versions` (`client.py`). The body builds the query
and calls `self._http.get(...)`, but `SyncHTTPAdapter.get` is `async def`
and the call is not awaited: `response` is an unstarted coroutine, no
request is made, and `response.status_code` raises `AttributeError`. The
status branch and parse that follow in the source are transcribed below the
crash and are unreachable. `license_id`, a `str | int | None` in Python, is
modelled already rendered by `str`. -/
def YouVersionClient.get_versions (language_ranges : String) (license_id : Option String)
    (network : Network) : Except ErrorValue (Result (PaginatedResponse BibleVersion) ErrorValue) :=
  let params : List (String × String) :=
    [("language_ranges[]", language_ranges)] ++
      (match license_id with
       | some lid => [("license_id", lid)]
       | none => [])
  let response := SyncHTTPAdapter.get_unawaited network "/v1/bibles" (some params)
  (response.getattr "status_code" : Except ErrorValue Nat).bind fun status_code =>
    if status_code = 400 then
      .ok (.Err (.validation
        { field := "language_ranges", reason := "Invalid language range format" }))
    else
      (response.getattr "json" : Except ErrorValue Json).bind fun data =>
        match PaginatedResponse.model_validate BibleVersion.model_validate data with
        | some p => .ok (.Ok p)
        | none => .error (.validationException "PaginatedResponse[BibleVersion]")

/-- `YouVersionClient.get_version` (`client.py`): the same missing `await`
on the async-def adapter; the call raises `AttributeError` at
`response.status_code` and the transcribed 404/parse logic is unreachable. -/
def YouVersionClient.get_version (bible_id : Int) (network : Network) :
    Except ErrorValue (Result BibleVersion ErrorValue) :=
  let response :=
    SyncHTTPAdapter.get_unawaited network ("/v1/bibles/" ++ toString bible_id) none
  (response.getattr "status_code" : Except ErrorValue Nat).bind fun status_code =>
    if status_code = 404 then
      .ok (.Err (.notFound
        { resource := .version, identifier := toString bible_id,
          message := "Bible version " ++ toString bible_id ++ " not found" }))
    else
      (response.getattr "json" : Except ErrorValue Json).bind fun data =>
        match BibleVersion.model_validate data with
        | some v => .ok (.Ok v)
        | none => .error (.validationException "BibleVersion")

/-- `YouVersionClient.get_books` (`client.py`): the same missing `await`;
raises `AttributeError` at `response.status_code`. -/
def YouVersionClient.get_books (version_id : Int) (network : Network) :
    Except ErrorValue (Result (PaginatedResponse BibleBook) ErrorValue) :=
  let response :=
    SyncHTTPAdapter.get_unawaited network ("/v1/bibles/" ++ toString version_id ++ "/books") none
  (response.getattr "status_code" : Except ErrorValue Nat).bind fun status_code =>
    if status_code = 404 then
      .ok (.Err (.notFound
        { resource := .version, identifier := toString version_id,
          message := "Bible version " ++ toString version_id ++ " not found" }))
    else
      (response.getattr "json" : Except ErrorValue Json).bind fun data =>
        match PaginatedResponse.model_validate BibleBook.model_validate data with
        | some p => .ok (.Ok p)
        | none => .error (.validationException "PaginatedResponse[BibleBook]")

/-- `YouVersionClient.get_book` (`client.py`): the same missing `await`;
raises `AttributeError` at `response.status_code`. -/
def YouVersionClient.get_book (version_id : Int) (book : String) (network : Network) :
    Except ErrorValue (Result BibleBook ErrorValue) :=
  let response := SyncHTTPAdapter.get_unawaited network
    ("/v1/bibles/" ++ toString version_id ++ "/books/" ++ book) none
  (response.getattr "status_code" : Except ErrorValue Nat).bind fun status_code =>
    if status_code = 404 then
      .ok (.Err (.notFound
        { resource := .book, identifier := book,
          message := "Book " ++ book ++ " not found in version " ++ toString version_id }))
    else
      (response.getattr "json" : Except ErrorValue Json).bind fun data =>
        match BibleBook.model_validate data with
        | some v => .ok (.Ok v)
        | none => .error (.validationException "BibleBook")

/-- `YouVersionClient.get_chapters` (`client.py`): the same missing `await`;
raises `AttributeError` at `response.status_code`. -/
def YouVersionClient.get_chapters (version_id : Int) (book : String) (network : Network) :
    Except ErrorValue (Result (PaginatedResponse BibleChapter) ErrorValue) :=
  let response := SyncHTTPAdapter.get_unawaited network
    ("/v1/bibles/" ++ toString version_id ++ "/books/" ++ book ++ "/chapters") none
  (response.getattr "status_code" : Except ErrorValue Nat).bind fun status_code =>
    if status_code = 404 then
      .ok (.Err (.notFound
        { resource := .book, identifier := book,
          message := "Book " ++ book ++ " not found" }))
    else
      (response.getattr "json" : Except ErrorValue Json).bind fun data =>
        match PaginatedResponse.model_validate BibleChapter.model_validate data with
        | some p => .ok (.Ok p)
        | none => .error (.validationException "PaginatedResponse[BibleChapter]")

/-- `YouVersionClient.get_chapter` (`client.py`): the same missing `await`;
raises `AttributeError` at `response.status_code`. -/
def YouVersionClient.get_chapter (version_id : Int) (book : String) (chapter : Int)
    (network : Network) : Except ErrorValue (Result BibleChapter ErrorValue) :=
  let response := SyncHTTPAdapter.get_unawaited network
    ("/v1/bibles/" ++ toString version_id ++ "/books/" ++ book ++ "/chapters/" ++
      toString chapter) none
  (response.getattr "status_code" : Except ErrorValue Nat).bind fun status_code =>
    if status_code = 404 then
      .ok (.Err (.notFound
        { resource := .chapter, identifier := book ++ "." ++ toString chapter,
          message := "Chapter " ++ book ++ " " ++ toString chapter ++ " not found" }))
    else
      (response.getattr "json" : Except ErrorValue Json).bind fun data =>
        match BibleChapter.model_validate data with
        | some v => .ok (.Ok v)
        | none => .error (.validationException "BibleChapter")

/-- `YouVersionClient.get_verses` (`client.py`): the same missing `await`;
raises `AttributeError` at `response.status_code`. -/
def YouVersionClient.get_verses (version_id : Int) (book : String) (chapter : Int)
    (network : Network) : Except ErrorValue (Result (PaginatedResponse BibleVerse) ErrorValue) :=
  let response := SyncHTTPAdapter.get_unawaited network
    ("/v1/bibles/" ++ toString version_id ++ "/books/" ++ book ++ "/chapters/" ++
      toString chapter ++ "/verses") none
  (response.getattr "status_code" : Except ErrorValue Nat).bind fun status_code =>
    if status_code = 404 then
      .ok (.Err (.notFound
        { resource := .chapter, identifier := book ++ "." ++ toString chapter,
          message := "Chapter " ++ book ++ " " ++ toString chapter ++ " not found" }))
    else
      (response.getattr "json" : Except ErrorValue Json).bind fun data =>
        match PaginatedResponse.model_validate BibleVerse.model_validate data with
        | some p => .ok (.Ok p)
        | none => .error (.validationException "PaginatedResponse[BibleVerse]")

/-- `YouVersionClient.get_verse` (`client.py`): the same missing `await`;
raises `AttributeError` at `response.status_code`. -/
def YouVersionClient.get_verse (version_id : Int) (book : String) (chapter : Int) (verse : Int)
    (network : Network) : Except ErrorValue (Result BibleVerse ErrorValue) :=
  let response := SyncHTTPAdapter.get_unawaited network
    ("/v1/bibles/" ++ toString version_id ++ "/books/" ++ book ++ "/chapters/" ++
      toString chapter ++ "/verses/" ++ toString verse) none
  (response.getattr "status_code" : Except ErrorValue Nat).bind fun status_code =>
    if status_code = 404 then
      .ok (.Err (.notFound
        { resource := .verse,
          identifier := book ++ "." ++ toString chapter ++ "." ++ toString verse,
          message := "Verse " ++ book ++ " " ++ toString chapter ++ ":" ++ toString verse ++
            " not found" }))
    else
      (response.getattr "json" : Except ErrorValue Json).bind fun data =>
        match BibleVerse.model_validate data with
        | some v => .ok (.Ok v)
        | none => .error (.validationException "BibleVerse")

/-- `YouVersionClient.get_passage` (`client.py`): the same missing `await`;
raises `AttributeError` at `response.status_code`. -/
def YouVersionClient.get_passage (version_id : Int) (usfm : String) (format : PassageFormat)
    (include_headings : Bool) (include_notes : Bool) (network : Network) :
    Except ErrorValue (Result BiblePassage ErrorValue) :=
  let params : List (String × String) :=
    [("format", format.toParam),
     ("include_headings", pyBoolStr include_headings),
     ("include_notes", pyBoolStr include_notes)]
  let response := SyncHTTPAdapter.get_unawaited network
    ("/v1/bibles/" ++ toString version_id ++ "/passages/" ++ usfm) (some params)
  (response.getattr "status_code" : Except ErrorValue Nat).bind fun status_code =>
    if status_code = 404 then
      .ok (.Err (.notFound
        { resource := .passage, identifier := usfm,
          message := "Passage " ++ usfm ++ " not found" }))
    else if status_code = 400 then
      .ok (.Err (.validation { field := "usfm", reason := "Invalid USFM format" }))
    else
      (response.getattr "json" : Except ErrorValue Json).bind fun data =>
        match BiblePassage.model_validate data with
        | some v => .ok (.Ok v)
        | none => .error (.validationException "BiblePassage")

/-- `YouVersionClient.get_languages` (`client.py`): the same missing
`await`; this method has no status branch, so the first coroutine attribute
access, `response.json()`, raises the `AttributeError`. -/
def YouVersionClient.get_languages (country : Option String) (page_size : Option Int)
    (page_token : Option String) (network : Network) :
    Except ErrorValue (Result (PaginatedResponse Language) ErrorValue) :=
  let params : List (String × String) :=
    (match country with | some c => [("country", c)] | none => []) ++
      (match page_size with | some n => [("page_size", toString n)] | none => []) ++
      (match page_token with | some t => [("page_token", t)] | none => [])
  let response := SyncHTTPAdapter.get_unawaited network "/v1/languages"
    (if params.isEmpty then none else some params)
  (response.getattr "json" : Except ErrorValue Json).bind fun data =>
    match PaginatedResponse.model_validate Language.model_validate data with
    | some p => .ok (.Ok p)
    | none => .error (.validationException "PaginatedResponse[Language]")

/-- `YouVersionClient.get_language` (`client.py`): the same missing `await`;
raises `AttributeError` at `response.status_code`. -/
def YouVersionClient.get_language (language_id : String) (network : Network) :
    Except ErrorValue (Result Language ErrorValue) :=
  let response :=
    SyncHTTPAdapter.get_unawaited network ("/v1/languages/" ++ language_id) none
  (response.getattr "status_code" : Except ErrorValue Nat).bind fun status_code =>
    if status_code = 404 then
      .ok (.Err (.notFound
        { resource := .language, identifier := language_id,
          message := "Language " ++ language_id ++ " not found" }))
    else
      (response.getattr "json" : Except ErrorValue Json).bind fun data =>
        match Language.model_validate data with
        | some v => .ok (.Ok v)
        | none => .error (.validationException "Language")

/-- `YouVersionClient.get_licenses` (`client.py`): the same missing `await`;
no status branch, so `response.json()` raises the `AttributeError`. -/
def YouVersionClient.get_licenses (bible_id : Int) (developer_id : String)
    (all_available : Bool) (network : Network) :
    Except ErrorValue (Result (PaginatedResponse License) ErrorValue) :=
  let params : List (String × String) :=
    [("bible_id", toString bible_id), ("developer_id", developer_id)] ++
      (if all_available then [("all_available", "true")] else [])
  let response := SyncHTTPAdapter.get_unawaited network "/v1/licenses" (some params)
  (response.getattr "json" : Except ErrorValue Json).bind fun data =>
    match PaginatedResponse.model_validate License.model_validate data with
    | some p => .ok (.Ok p)
    | none => .error (.validationException "PaginatedResponse[License]")

/-- `AsyncYouVersionClient.get_versions` (`client.py`), a textual duplicate
of the sync method over the async adapter. -/
def AsyncYouVersionClient.get_versions (language_ranges : String) (license_id : Option String)
    (network : Network) : Except ErrorValue (Result (PaginatedResponse BibleVersion) ErrorValue) :=
  let params : List (String × String) :=
    [("language_ranges[]", language_ranges)] ++
      (match license_id with
       | some lid => [("license_id", lid)]
       | none => [])
  (AsyncHTTPAdapter.get network "/v1/bibles" (some params)).bind fun response =>
    if response.status_code = 400 then
      .ok (.Err (.validation
        { field := "language_ranges", reason := "Invalid language range format" }))
    else
      match PaginatedResponse.model_validate BibleVersion.model_validate response.body with
      | some p => .ok (.Ok p)
      | none => .error (.validationException "PaginatedResponse[BibleVersion]")

/-- `AsyncYouVersionClient.get_version` (`client.py`). -/
def AsyncYouVersionClient.get_version (bible_id : Int) (network : Network) :
    Except ErrorValue (Result BibleVersion ErrorValue) :=
  (AsyncHTTPAdapter.get network ("/v1/bibles/" ++ toString bible_id) none).bind fun response =>
    if response.status_code = 404 then
      .ok (.Err (.notFound
        { resource := .version, identifier := toString bible_id,
          message := "Bible version " ++ toString bible_id ++ " not found" }))
    else
      match BibleVersion.model_validate response.body with
      | some v => .ok (.Ok v)
      | none => .error (.validationException "BibleVersion")

/-- `AsyncYouVersionClient.get_books` (`client.py`). -/
def AsyncYouVersionClient.get_books (version_id : Int) (network : Network) :
    Except ErrorValue (Result (PaginatedResponse BibleBook) ErrorValue) :=
  (AsyncHTTPAdapter.get network ("/v1/bibles/" ++ toString version_id ++ "/books") none).bind
    fun response =>
      if response.status_code = 404 then
        .ok (.Err (.notFound
          { resource := .version, identifier := toString version_id,
            message := "Bible version " ++ toString version_id ++ " not found" }))
      else
        match PaginatedResponse.model_validate BibleBook.model_validate response.body with
        | some p => .ok (.Ok p)
        | none => .error (.validationException "PaginatedResponse[BibleBook]")

/-- `AsyncYouVersionClient.get_book` (`client.py`). -/
def AsyncYouVersionClient.get_book (version_id : Int) (book : String) (network : Network) :
    Except ErrorValue (Result BibleBook ErrorValue) :=
  (AsyncHTTPAdapter.get network
      ("/v1/bibles/" ++ toString version_id ++ "/books/" ++ book) none).bind fun response =>
    if response.status_code = 404 then
      .ok (.Err (.notFound
        { resource := .book, identifier := book,
          message := "Book " ++ book ++ " not found in version " ++ toString version_id }))
    else
      match BibleBook.model_validate response.body with
      | some v => .ok (.Ok v)
      | none => .error (.validationException "BibleBook")

/-- `AsyncYouVersionClient.get_chapters` (`client.py`). -/
def AsyncYouVersionClient.get_chapters (version_id : Int) (book : String) (network : Network) :
    Except ErrorValue (Result (PaginatedResponse BibleChapter) ErrorValue) :=
  (AsyncHTTPAdapter.get network
      ("/v1/bibles/" ++ toString version_id ++ "/books/" ++ book ++ "/chapters") none).bind
    fun response =>
      if response.status_code = 404 then
        .ok (.Err (.notFound
          { resource := .book, identifier := book,
            message := "Book " ++ book ++ " not found" }))
      else
        match PaginatedResponse.model_validate BibleChapter.model_validate response.body with
        | some p => .ok (.Ok p)
        | none => .error (.validationException "PaginatedResponse[BibleChapter]")

/-- `AsyncYouVersionClient.get_chapter` (`client.py`). -/
def AsyncYouVersionClient.get_chapter (version_id : Int) (book : String) (chapter : Int)
    (network : Network) : Except ErrorValue (Result BibleChapter ErrorValue) :=
  (AsyncHTTPAdapter.get network
      ("/v1/bibles/" ++ toString version_id ++ "/books/" ++ book ++ "/chapters/" ++
        toString chapter) none).bind fun response =>
    if response.status_code = 404 then
      .ok (.Err (.notFound
        { resource := .chapter, identifier := book ++ "." ++ toString chapter,
          message := "Chapter " ++ book ++ " " ++ toString chapter ++ " not found" }))
    else
      match BibleChapter.model_validate response.body with
      | some v => .ok (.Ok v)
      | none => .error (.validationException "BibleChapter")

/-- `AsyncYouVersionClient.get_verses` (`client.py`). -/
def AsyncYouVersionClient.get_verses (version_id : Int) (book : String) (chapter : Int)
    (network : Network) : Except ErrorValue (Result (PaginatedResponse BibleVerse) ErrorValue) :=
  (AsyncHTTPAdapter.get network
      ("/v1/bibles/" ++ toString version_id ++ "/books/" ++ book ++ "/chapters/" ++
        toString chapter ++ "/verses") none).bind fun response =>
    if response.status_code = 404 then
      .ok (.Err (.notFound
        { resource := .chapter, identifier := book ++ "." ++ toString chapter,
          message := "Chapter " ++ book ++ " " ++ toString chapter ++ " not found" }))
    else
      match PaginatedResponse.model_validate BibleVerse.model_validate response.body with
      | some p => .ok (.Ok p)
      | none => .error (.validationException "PaginatedResponse[BibleVerse]")

/-- `AsyncYouVersionClient.get_verse` (`client.py`). -/
def AsyncYouVersionClient.get_verse (version_id : Int) (book : String) (chapter : Int)
    (verse : Int) (network : Network) : Except ErrorValue (Result BibleVerse ErrorValue) :=
  (AsyncHTTPAdapter.get network
      ("/v1/bibles/" ++ toString version_id ++ "/books/" ++ book ++ "/chapters/" ++
        toString chapter ++ "/verses/" ++ toString verse) none).bind fun response =>
    if response.status_code = 404 then
      .ok (.Err (.notFound
        { resource := .verse,
          identifier := book ++ "." ++ toString chapter ++ "." ++ toString verse,
          message := "Verse " ++ book ++ " " ++ toString chapter ++ ":" ++ toString verse ++
            " not found" }))
    else
      match BibleVerse.model_validate response.body with
      | some v => .ok (.Ok v)
      | none => .error (.validationException "BibleVerse")

/-- `AsyncYouVersionClient.get_passage` (`client.py`). -/
def AsyncYouVersionClient.get_passage (version_id : Int) (usfm : String) (format : PassageFormat)
    (include_headings : Bool) (include_notes : Bool) (network : Network) :
    Except ErrorValue (Result BiblePassage ErrorValue) :=
  let params : List (String × String) :=
    [("format", format.toParam),
     ("include_headings", pyBoolStr include_headings),
     ("include_notes", pyBoolStr include_notes)]
  (AsyncHTTPAdapter.get network
      ("/v1/bibles/" ++ toString version_id ++ "/passages/" ++ usfm) (some params)).bind
    fun response =>
      if response.status_code = 404 then
        .ok (.Err (.notFound
          { resource := .passage, identifier := usfm,
            message := "Passage " ++ usfm ++ " not found" }))
      else if response.status_code = 400 then
        .ok (.Err (.validation { field := "usfm", reason := "Invalid USFM format" }))
      else
        match BiblePassage.model_validate response.body with
        | some v => .ok (.Ok v)
        | none => .error (.validationException "BiblePassage")

/-- `AsyncYouVersionClient.get_languages` (`client.py`). -/
def AsyncYouVersionClient.get_languages (country : Option String) (page_size : Option Int)
    (page_token : Option String) (network : Network) :
    Except ErrorValue (Result (PaginatedResponse Language) ErrorValue) :=
  let params : List (String × String) :=
    (match country with | some c => [("country", c)] | none => []) ++
      (match page_size with | some n => [("page_size", toString n)] | none => []) ++
      (match page_token with | some t => [("page_token", t)] | none => [])
  (AsyncHTTPAdapter.get network "/v1/languages"
      (if params.isEmpty then none else some params)).bind fun response =>
    match PaginatedResponse.model_validate Language.model_validate response.body with
    | some p => .ok (.Ok p)
    | none => .error (.validationException "PaginatedResponse[Language]")

/-- `AsyncYouVersionClient.get_language` (`client.py`). -/
def AsyncYouVersionClient.get_language (language_id : String) (network : Network) :
    Except ErrorValue (Result Language ErrorValue) :=
  (AsyncHTTPAdapter.get network ("/v1/languages/" ++ language_id) none).bind fun response =>
    if response.status_code = 404 then
      .ok (.Err (.notFound
        { resource := .language, identifier := language_id,
          message := "Language " ++ language_id ++ " not found" }))
    else
      match Language.model_validate response.body with
      | some v => .ok (.Ok v)
      | none => .error (.validationException "Language")

/-- `AsyncYouVersionClient.get_licenses` (`client.py`). -/
def AsyncYouVersionClient.get_licenses (bible_id : Int) (developer_id : String)
    (all_available : Bool) (network : Network) :
    Except ErrorValue (Result (PaginatedResponse License) ErrorValue) :=
  let params : List (String × String) :=
    [("bible_id", toString bible_id), ("developer_id", developer_id)] ++
      (if all_available then [("all_available", "true")] else [])
  (AsyncHTTPAdapter.get network "/v1/licenses" (some params)).bind fun response =>
    match PaginatedResponse.model_validate License.model_validate response.body with
    | some p => .ok (.Ok p)
    | none => .error (.validationException "PaginatedResponse[License]")

/-- Modelled from the spec: the verse-of-the-day lookup `get_votd` is absent
from the sources (only its unit tests call it); spec section 6 documents
route `/verse_of_the_days/{day}` returning a VOTD record with
`400 → ValidationError(field=day)` for an out-of-range day, following the
same adapter-then-status-branch shape as every other endpoint method. -/
def YouVersionClient.get_votd (day : Int) (network : Network) :
    Except ErrorValue (Result VerseOfTheDay ErrorValue) :=
  (SyncHTTPAdapter.get network ("/v1/verse_of_the_days/" ++ toString day) none).bind
    fun response =>
      if response.status_code = 400 then
        .ok (.Err (.validation { field := "day", reason := "Day must be between 1 and 366" }))
      else
        match VerseOfTheDay.model_validate response.body with
        | some v => .ok (.Ok v)
        | none => .error (.validationException "VerseOfTheDay")

/-- Modelled from the spec: the verse-of-the-day list `get_all_votd` is
absent from the sources (only its unit tests call it); spec section 6
documents route `/verse_of_the_days` returning a paginated VOTD list with no
modelled domain failure. -/
def YouVersionClient.get_all_votd (network : Network) :
    Except ErrorValue (Result (PaginatedResponse VerseOfTheDay) ErrorValue) :=
  (SyncHTTPAdapter.get network "/v1/verse_of_the_days" none).bind fun response =>
    match PaginatedResponse.model_validate VerseOfTheDay.model_validate response.body with
    | some p => .ok (.Ok p)
    | none => .error (.validationException "PaginatedResponse[VerseOfTheDay]")

/-- Modelled from the spec: the organization list `get_organizations` is
absent from the sources (only its unit tests call it); spec section 6
documents route `/organizations?bible_id=&accept_language=header` returning a
paginated organization list with no modelled domain failure. It is modelled
here as the asynchronous facade method (the spec gives both facades
identical signatures, and the async facade is the one whose adapter calls
execute). The optional `Accept-Language` request header does not affect the
modelled outcome. -/
def AsyncYouVersionClient.get_organizations (bible_id : Int) (network : Network) :
    Except ErrorValue (Result (PaginatedResponse Organization) ErrorValue) :=
  (AsyncHTTPAdapter.get network "/v1/organizations"
      (some [("bible_id", toString bible_id)])).bind fun response =>
    match PaginatedResponse.model_validate Organization.model_validate response.body with
    | some p => .ok (.Ok p)
    | none => .error (.validationException "PaginatedResponse[Organization]")

lemma sync_check_error_not_domain (r : HTTPResponse) (e : ErrorValue)
    (h : SyncHTTPAdapter.check_error_status r = .error e) : e.isDomain = false := by
  unfold SyncHTTPAdapter.check_error_status at h
  split_ifs at h <;>
    first
      | (split at h <;> (cases h; rfl))
      | (cases h; rfl)

lemma sync_get_error_not_domain (network : Network) (p : String) (q : Params) (e : ErrorValue)
    (h : SyncHTTPAdapter.get network p q = .error e) : e.isDomain = false := by
  unfold SyncHTTPAdapter.get at h
  split at h
  · cases h; rfl
  · cases h; rfl
  · cases h; rfl
  · split at h
    · cases h
      exact sync_check_error_not_domain _ _ (by assumption)
    · cases h

lemma sync_get_401 (r : HTTPResponse) (h : r.status_code = 401) (p : String) (q : Params) :
    SyncHTTPAdapter.get (constNet r) p q
      = .error (.authenticationError "Invalid or missing API key") := by
  unfold SyncHTTPAdapter.get constNet SyncHTTPAdapter.check_error_status
  simp [h]

/-- C10: for every `Result`, `is_ok` holds exactly on `Ok` values, `is_err`
exactly on `Err` values, and the two predicates are exact complements, so
exactly one of them holds for any `Result`. -/
theorem C10_is_ok_is_err_exact_complements {T E : Type} (r : Result T E) :
    (is_ok r = true ↔ ∃ v, r = Result.Ok v) ∧
    (is_err r = true ↔ ∃ e, r = Result.Err e) ∧
    (is_ok r = true ↔ is_err r = false) := by
  cases r <;> simp [is_ok, is_err]

/-- Witness for C10 at concrete results. -/
theorem C10_is_ok_is_err_exact_complements_witness :
    is_ok (Result.Ok 0 : Result Nat Nat) = true ∧
    is_err (Result.Err 1 : Result Nat Nat) = true :=
  ⟨(C10_is_ok_is_err_exact_complements _).1.mpr ⟨0, rfl⟩,
   (C10_is_ok_is_err_exact_complements _).2.1.mpr ⟨1, rfl⟩⟩

/-- C8 (code bug): the synchronous facade never releases resources:
`YouVersionClient.close` discards the unawaited teardown coroutine of its
`async def` adapter, so a first and a second close both perform zero
transport teardowns and leave the httpx client open — not the released
exactly once that the claim requires. The asynchronous facade, which awaits
`aclose`, does satisfy the claim: one teardown on the first close, none on
the second, and neither call raises. -/
theorem C8_sync_close_never_tears_down :
    YouVersionClient.close HttpxClient.fresh = (HttpxClient.fresh, 0) ∧
    YouVersionClient.close (YouVersionClient.close HttpxClient.fresh).1
      = (HttpxClient.fresh, 0) ∧
    AsyncYouVersionClient.close HttpxClient.fresh = ({ is_closed := true }, 1) ∧
    AsyncYouVersionClient.close (AsyncYouVersionClient.close HttpxClient.fresh).1
      = ({ is_closed := true }, 0) :=
  ⟨rfl, rfl, rfl, rfl⟩

/-- A 401 response used by witnesses. -/
def r401 : HTTPResponse := { status_code := 401 }

/-- C1 (code bug): the dual-channel policy is the spec's intent, but the
synchronous facade cannot honour it: its endpoint methods never await the
async-def adapter, so a delivered 401 produces an `AttributeError` on the
unstarted coroutine — no request is made, no `AuthenticationError` is
raised, and no domain or transport error value is constructed. The
asynchronous twin, which awaits, raises `AuthenticationError` exactly as
the claim demands. -/
theorem C1_sync_401_raises_attribute_error :
    YouVersionClient.get_version 111 (constNet r401)
        = .error (.attributeError "coroutine object has no attribute status_code") ∧
    ErrorValue.isTransport
        (.attributeError "coroutine object has no attribute status_code") = false ∧
    ErrorValue.isDomain
        (.attributeError "coroutine object has no attribute status_code") = false ∧
    AsyncYouVersionClient.get_version 111 (constNet r401)
        = .error (.authenticationError "Invalid or missing API key") :=
  ⟨rfl, rfl, rfl, rfl⟩

/-- A 200 response with an empty paginated body. -/
def r200empty : HTTPResponse :=
  { status_code := 200, body := .obj [("data", .arr [])] }

/-- C2 (code bug): facade equivalence is the spec's intent, but on identical
delivered responses the facades do not produce structurally equal `Result`
values: the asynchronous `get_versions` returns `Ok` of the parsed page
while the synchronous twin raises `AttributeError` on the unawaited adapter
coroutine and produces no `Result` at all. -/
theorem C2_facades_not_equivalent :
    AsyncYouVersionClient.get_versions "en" none (constNet r200empty)
        = .ok (.Ok
            { data := ([] : List BibleVersion), next_page_token := none,
              total_count := none }) ∧
    YouVersionClient.get_versions "en" none (constNet r200empty)
        = .error (.attributeError "coroutine object has no attribute status_code") ∧
    YouVersionClient.get_versions "en" none (constNet r200empty)
        ≠ AsyncYouVersionClient.get_versions "en" none (constNet r200empty) := by
  refine ⟨rfl, rfl, fun h => ?_⟩
  have h2 : (Except.error (ErrorValue.attributeError
        "coroutine object has no attribute status_code") :
      Except ErrorValue (Result (PaginatedResponse BibleVersion) ErrorValue))
      = .ok (.Ok
          { data := ([] : List BibleVersion), next_page_token := none,
            total_count := none }) := h
  exact Except.noConfusion h2

/-- Witness for C2 at the concrete response: the asynchronous call's parsed
page, obtained through the theorem. -/
theorem C2_facades_not_equivalent_witness :
    AsyncYouVersionClient.get_versions "en" none (constNet r200empty)
      = .ok (.Ok
          { data := ([] : List BibleVersion), next_page_token := none,
            total_count := none }) :=
  C2_facades_not_equivalent.1

lemma async_adapter_get_eq_sync : AsyncHTTPAdapter.get = SyncHTTPAdapter.get := rfl

lemma async_check_eq_sync :
    AsyncHTTPAdapter.check_error_status = SyncHTTPAdapter.check_error_status := rfl

lemma sync_get_delivered (network : Network) (p : String) (q : Params) (r : HTTPResponse)
    (hn : network p q = .response r) :
    SyncHTTPAdapter.get network p q =
      match SyncHTTPAdapter.check_error_status r with
      | .error e => .error e
      | .ok _ => .ok r := by
  unfold SyncHTTPAdapter.get
  rw [hn]

lemma pyFloat_empty : pyFloat "" = none := rfl

lemma pyFloat_some_not_empty (s : String) (q : Rat) (hq : pyFloat s = some q) :
    s.isEmpty = false := by
  by_cases he : s.isEmpty
  · rw [(String.isEmpty_iff s).mp he] at hq
    rw [pyFloat_empty] at hq
    cases hq
  · simpa using he

lemma check_429_none (r : HTTPResponse) (h : r.status_code = 429)
    (hh : r.retry_after_header = none) :
    SyncHTTPAdapter.check_error_status r
      = .error (.rateLimitError "Rate limit exceeded" none) := by
  unfold SyncHTTPAdapter.check_error_status
  simp [h, hh, retryAfterOf]

lemma check_429_numeric (r : HTTPResponse) (s : String) (q : Rat) (h : r.status_code = 429)
    (hh : r.retry_after_header = some s) (hq : pyFloat s = some q) :
    SyncHTTPAdapter.check_error_status r
      = .error (.rateLimitError "Rate limit exceeded" (some q)) := by
  unfold SyncHTTPAdapter.check_error_status
  simp [h, hh, retryAfterOf, pyFloat_some_not_empty s q hq, hq]

lemma pyFloat_60_cast : pyFloat "60" = some ((digitsToNat ['6', '0'] : Rat) + 0) := rfl

lemma pyFloat_60 : pyFloat "60" = some 60 := by
  rw [pyFloat_60_cast]
  norm_num [show digitsToNat ['6', '0'] = 60 from by decide]

lemma retryAfterOf_60 : retryAfterOf (some "60") = .ok (some 60) := by
  simp [retryAfterOf, pyFloat_60, show "60".isEmpty = false from rfl]

/-- C3 (amended): for every delivered HTTP response, both adapters raise
`AuthenticationError` on 401; on 429 they raise `RateLimitError` whenever the
`Retry-After` computation succeeds (header absent, empty, or numeric), while
a present non-numeric header makes the modelled `float` conversion raise
`ValueError` instead; on any status of at least 500 other than 401/429 they
raise `ServerError` carrying the numeric status code; and on any other
status (including 200, 400 and 404) they return the response unmodified
without raising. -/
theorem C3_adapter_status_mapping (network : Network) (p : String) (q : Params)
    (r : HTTPResponse) (hn : network p q = .response r) :
    (r.status_code = 401 →
       SyncHTTPAdapter.get network p q
           = .error (.authenticationError "Invalid or missing API key") ∧
       AsyncHTTPAdapter.get network p q
           = .error (.authenticationError "Invalid or missing API key")) ∧
    (∀ ra, r.status_code = 429 → retryAfterOf r.retry_after_header = .ok ra →
       SyncHTTPAdapter.get network p q = .error (.rateLimitError "Rate limit exceeded" ra) ∧
       AsyncHTTPAdapter.get network p q = .error (.rateLimitError "Rate limit exceeded" ra)) ∧
    (∀ m, r.status_code = 429 → retryAfterOf r.retry_after_header = .error m →
       SyncHTTPAdapter.get network p q = .error (.valueError m) ∧
       AsyncHTTPAdapter.get network p q = .error (.valueError m)) ∧
    (r.status_code ≠ 401 → r.status_code ≠ 429 → 500 ≤ r.status_code →
       SyncHTTPAdapter.get network p q
           = .error (.serverError ("Server error: " ++ toString r.status_code) r.status_code) ∧
       AsyncHTTPAdapter.get network p q
           = .error (.serverError ("Server error: " ++ toString r.status_code) r.status_code)) ∧
    (r.status_code ≠ 401 → r.status_code ≠ 429 → r.status_code < 500 →
       SyncHTTPAdapter.get network p q = .ok r ∧
       AsyncHTTPAdapter.get network p q = .ok r) := by
  rw [async_adapter_get_eq_sync, sync_get_delivered network p q r hn]
  unfold SyncHTTPAdapter.check_error_status
  refine ⟨fun h => ?_, fun ra h hra => ?_, fun m h hm => ?_, fun h1 h2 h3 => ?_,
    fun h1 h2 h3 => ?_⟩
  · simp [h]
  · simp [h, hra]
  · simp [h, hm]
  · simp [h1, h2, h3]
  · simp [h1, h2, not_le.mpr h3]

/-- Witness for C3 at concrete responses: a 401, a 429 carrying
`Retry-After: 60`, a 503, and a plain 404 that is passed through. -/
theorem C3_adapter_status_mapping_witness :
    SyncHTTPAdapter.get (constNet { status_code := 401 }) "/v1/bibles" none
        = .error (.authenticationError "Invalid or missing API key") ∧
    SyncHTTPAdapter.get (constNet { status_code := 429, retry_after_header := some "60" })
        "/v1/bibles" none = .error (.rateLimitError "Rate limit exceeded" (some 60)) ∧
    SyncHTTPAdapter.get (constNet { status_code := 503 }) "/v1/bibles" none
        = .error (.serverError ("Server error: " ++ toString 503) 503) ∧
    SyncHTTPAdapter.get (constNet { status_code := 404 }) "/v1/bibles" none
        = .ok { status_code := 404 } :=
  ⟨(C3_adapter_status_mapping (constNet { status_code := 401 }) "/v1/bibles" none _ rfl).1
      rfl |>.1,
   ((C3_adapter_status_mapping
        (constNet { status_code := 429, retry_after_header := some "60" }) "/v1/bibles" none _
        rfl).2.1 (some 60) rfl retryAfterOf_60).1,
   ((C3_adapter_status_mapping (constNet { status_code := 503 }) "/v1/bibles" none _
        rfl).2.2.2.1 (by decide) (by decide) (by decide)).1,
   ((C3_adapter_status_mapping (constNet { status_code := 404 }) "/v1/bibles" none _
        rfl).2.2.2.2 (by decide) (by decide) (by decide)).1⟩

/-- A 429 response whose `Retry-After` header is not numeric. -/
def r429malformed : HTTPResponse := { status_code := 429, retry_after_header := some "abc" }

/-- Counterexample for C3 as stated: on a 429 response whose `Retry-After`
header is the non-numeric string "abc", the adapter raises the `float`
conversion's `ValueError`, not `RateLimitError`. -/
theorem C3_counterexample_429_nonnumeric_header :
    SyncHTTPAdapter.get (constNet r429malformed) "/v1/bibles" none
        = .error (.valueError ("could not convert string to float: " ++ "abc")) ∧
    ErrorValue.isRateLimit (.valueError ("could not convert string to float: " ++ "abc"))
        = false :=
  ⟨rfl, rfl⟩

/-- C7: the `RateLimitError` raised for a 429 response carries the parsed
numeric value of a present `Retry-After` header and a null hint when the
header is absent, identically in both adapters. -/
theorem C7_retry_after_population (r : HTTPResponse) (h : r.status_code = 429) :
    (r.retry_after_header = none →
       SyncHTTPAdapter.check_error_status r
           = .error (.rateLimitError "Rate limit exceeded" none) ∧
       AsyncHTTPAdapter.check_error_status r
           = .error (.rateLimitError "Rate limit exceeded" none)) ∧
    (∀ s q, r.retry_after_header = some s → pyFloat s = some q →
       SyncHTTPAdapter.check_error_status r
           = .error (.rateLimitError "Rate limit exceeded" (some q)) ∧
       AsyncHTTPAdapter.check_error_status r
           = .error (.rateLimitError "Rate limit exceeded" (some q))) := by
  rw [async_check_eq_sync]
  exact ⟨fun hh => ⟨check_429_none r h hh, check_429_none r h hh⟩,
    fun s q hh hq => ⟨check_429_numeric r s q h hh hq, check_429_numeric r s q h hh hq⟩⟩

/-- Witness for C7: concrete 429 responses with header `"60"` and with no
header. -/
theorem C7_retry_after_population_witness :
    SyncHTTPAdapter.check_error_status { status_code := 429, retry_after_header := some "60" }
        = .error (.rateLimitError "Rate limit exceeded" (some 60)) ∧
    SyncHTTPAdapter.check_error_status { status_code := 429 }
        = .error (.rateLimitError "Rate limit exceeded" none) :=
  ⟨((C7_retry_after_population { status_code := 429, retry_after_header := some "60" } rfl).2
      "60" 60 rfl pyFloat_60).1,
   ((C7_retry_after_population { status_code := 429 } rfl).1 rfl).1⟩

lemma sync_get_pass (r : HTTPResponse) (h1 : r.status_code ≠ 401) (h2 : r.status_code ≠ 429)
    (h3 : r.status_code < 500) (p : String) (q : Params) :
    SyncHTTPAdapter.get (constNet r) p q = .ok r := by
  unfold SyncHTTPAdapter.get constNet SyncHTTPAdapter.check_error_status
  simp [h1, h2, not_le.mpr h3]

lemma sync_get_404 (r : HTTPResponse) (h : r.status_code = 404) (p : String) (q : Params) :
    SyncHTTPAdapter.get (constNet r) p q = .ok r :=
  sync_get_pass r (by simp [h]) (by simp [h]) (by simp [h]) p q

/-- A plain 404 response used by concrete evaluations. -/
def r404 : HTTPResponse := { status_code := 404 }

/-- C4 (code bug): the per-endpoint 404 mapping is the spec's intent and is
present in the transcribed status branches, but the synchronous methods the
claim's sources point at never reach it: a delivered 404 produces an
`AttributeError` on the unawaited adapter coroutine instead of
`Err(NotFoundError)`. The asynchronous twins do produce exactly the
documented error value — fixed `resource`, identifier from the lookup key —
shown here for a version lookup and a verse lookup. -/
theorem C4_sync_404_raises_attribute_error :
    YouVersionClient.get_version 999 (constNet r404)
        = .error (.attributeError "coroutine object has no attribute status_code") ∧
    YouVersionClient.get_verse 111 "JHN" 3 16 (constNet r404)
        = .error (.attributeError "coroutine object has no attribute status_code") ∧
    AsyncYouVersionClient.get_version 999 (constNet r404)
        = .ok (.Err (.notFound
            { resource := .version, identifier := toString (999 : Int),
              message := "Bible version " ++ toString (999 : Int) ++ " not found" })) ∧
    AsyncYouVersionClient.get_verse 111 "JHN" 3 16 (constNet r404)
        = .ok (.Err (.notFound
            { resource := .verse,
              identifier := "JHN" ++ "." ++ toString (3 : Int) ++ "." ++ toString (16 : Int),
              message := "Verse " ++ "JHN" ++ " " ++ toString (3 : Int) ++ ":" ++
                toString (16 : Int) ++ " not found" })) :=
  ⟨rfl, rfl, rfl, rfl⟩

lemma sync_get_500 (r : HTTPResponse) (h1 : r.status_code ≠ 401) (h2 : r.status_code ≠ 429)
    (h3 : 500 ≤ r.status_code) (p : String) (q : Params) :
    SyncHTTPAdapter.get (constNet r) p q
      = .error (.serverError ("Server error: " ++ toString r.status_code) r.status_code) := by
  unfold SyncHTTPAdapter.get constNet SyncHTTPAdapter.check_error_status
  simp [h1, h2, h3]

lemma ok_of_bind {T : Type} (x : Except ErrorValue HTTPResponse)
    (k : HTTPResponse → Except ErrorValue (Result T ErrorValue))
    (res : Result T ErrorValue) (h : x.bind k = .ok res) : ∃ r, k r = .ok res := by
  cases x with
  | error e => simp [Except.bind] at h
  | ok r => exact ⟨r, by simpa [Except.bind] using h⟩

lemma noerr_async_get_languages (c : Option String) (ps : Option Int) (pt : Option String)
    (network : Network) (res : Result (PaginatedResponse Language) ErrorValue)
    (hres : AsyncYouVersionClient.get_languages c ps pt network = .ok res) :
    is_err res = false := by
  unfold AsyncYouVersionClient.get_languages at hres
  rw [async_adapter_get_eq_sync] at hres
  obtain ⟨r, hk⟩ := ok_of_bind _ _ _ hres
  cases hv : PaginatedResponse.model_validate Language.model_validate r.body with
  | none =>
    simp only [hv] at hk
    exact Except.noConfusion hk
  | some p =>
    simp only [hv] at hk
    cases hk
    rfl

lemma noerr_async_get_licenses (i : Int) (d : String) (a : Bool) (network : Network)
    (res : Result (PaginatedResponse License) ErrorValue)
    (hres : AsyncYouVersionClient.get_licenses i d a network = .ok res) :
    is_err res = false := by
  unfold AsyncYouVersionClient.get_licenses at hres
  rw [async_adapter_get_eq_sync] at hres
  obtain ⟨r, hk⟩ := ok_of_bind _ _ _ hres
  cases hv : PaginatedResponse.model_validate License.model_validate r.body with
  | none =>
    simp only [hv] at hk
    exact Except.noConfusion hk
  | some p =>
    simp only [hv] at hk
    cases hk
    rfl

lemma noerr_async_get_organizations (i : Int) (network : Network)
    (res : Result (PaginatedResponse Organization) ErrorValue)
    (hres : AsyncYouVersionClient.get_organizations i network = .ok res) :
    is_err res = false := by
  unfold AsyncYouVersionClient.get_organizations at hres
  rw [async_adapter_get_eq_sync] at hres
  obtain ⟨r, hk⟩ := ok_of_bind _ _ _ hres
  cases hv : PaginatedResponse.model_validate Organization.model_validate r.body with
  | none =>
    simp only [hv] at hk
    exact Except.noConfusion hk
  | some p =>
    simp only [hv] at hk
    cases hk
    rfl

lemma auth_async_get_languages (c : Option String) (ps : Option Int) (pt : Option String)
    (r : HTTPResponse) (h : r.status_code = 401) :
    AsyncYouVersionClient.get_languages c ps pt (constNet r)
      = .error (.authenticationError "Invalid or missing API key") := by
  unfold AsyncYouVersionClient.get_languages
  rw [async_adapter_get_eq_sync]
  simp only [sync_get_401 r h]
  rfl

lemma auth_async_get_licenses (i : Int) (d : String) (a : Bool) (r : HTTPResponse)
    (h : r.status_code = 401) :
    AsyncYouVersionClient.get_licenses i d a (constNet r)
      = .error (.authenticationError "Invalid or missing API key") := by
  unfold AsyncYouVersionClient.get_licenses
  rw [async_adapter_get_eq_sync]
  simp only [sync_get_401 r h]
  rfl

lemma auth_async_get_organizations (i : Int) (r : HTTPResponse) (h : r.status_code = 401) :
    AsyncYouVersionClient.get_organizations i (constNet r)
      = .error (.authenticationError "Invalid or missing API key") := by
  unfold AsyncYouVersionClient.get_organizations
  rw [async_adapter_get_eq_sync]
  simp only [sync_get_401 r h]
  rfl

/-- C5 (amended): on the asynchronous facade — the only facade whose adapter
calls execute; the synchronous twins raise `AttributeError` on the unawaited
coroutine before any status handling, as the last two conjuncts show — the
endpoints with no modelled 400/404 semantics (language list, licence list,
and the spec-modelled organization list) return `Ok` for any delivered
response whose status is not 401/429/5xx — including 400 and 404 — provided
the body parses as the paginated shape; they never construct an `Err`; and
401 and 5xx statuses raise the corresponding transport exception in the
adapter. A plain 4xx such as 404 is not raised: it flows into body parsing
(see the counterexample). -/
theorem C5_unmodeled_endpoints_pass_through (r : HTTPResponse) :
    (∀ c ps pt p, r.status_code ≠ 401 → r.status_code ≠ 429 → r.status_code < 500 →
       PaginatedResponse.model_validate Language.model_validate r.body = some p →
       AsyncYouVersionClient.get_languages c ps pt (constNet r) = .ok (.Ok p)) ∧
    (∀ i d a p, r.status_code ≠ 401 → r.status_code ≠ 429 → r.status_code < 500 →
       PaginatedResponse.model_validate License.model_validate r.body = some p →
       AsyncYouVersionClient.get_licenses i d a (constNet r) = .ok (.Ok p)) ∧
    (∀ i p, r.status_code ≠ 401 → r.status_code ≠ 429 → r.status_code < 500 →
       PaginatedResponse.model_validate Organization.model_validate r.body = some p →
       AsyncYouVersionClient.get_organizations i (constNet r) = .ok (.Ok p)) ∧
    (∀ c ps pt network res, AsyncYouVersionClient.get_languages c ps pt network = .ok res →
       is_err res = false) ∧
    (∀ i d a network res, AsyncYouVersionClient.get_licenses i d a network = .ok res →
       is_err res = false) ∧
    (∀ i network res, AsyncYouVersionClient.get_organizations i network = .ok res →
       is_err res = false) ∧
    (∀ c ps pt, r.status_code = 401 → AsyncYouVersionClient.get_languages c ps pt (constNet r)
       = .error (.authenticationError "Invalid or missing API key")) ∧
    (∀ i d a, r.status_code = 401 → AsyncYouVersionClient.get_licenses i d a (constNet r)
       = .error (.authenticationError "Invalid or missing API key")) ∧
    (∀ i, r.status_code = 401 → AsyncYouVersionClient.get_organizations i (constNet r)
       = .error (.authenticationError "Invalid or missing API key")) ∧
    (∀ c ps pt, r.status_code ≠ 401 → r.status_code ≠ 429 → 500 ≤ r.status_code →
       AsyncYouVersionClient.get_languages c ps pt (constNet r)
         = .error (.serverError ("Server error: " ++ toString r.status_code)
             r.status_code)) ∧
    (∀ i d a, r.status_code ≠ 401 → r.status_code ≠ 429 → 500 ≤ r.status_code →
       AsyncYouVersionClient.get_licenses i d a (constNet r)
         = .error (.serverError ("Server error: " ++ toString r.status_code)
             r.status_code)) ∧
    (∀ i, r.status_code ≠ 401 → r.status_code ≠ 429 → 500 ≤ r.status_code →
       AsyncYouVersionClient.get_organizations i (constNet r)
         = .error (.serverError ("Server error: " ++ toString r.status_code)
             r.status_code)) ∧
    (∀ c ps pt network, YouVersionClient.get_languages c ps pt network
       = .error (.attributeError "coroutine object has no attribute json")) ∧
    (∀ i d a network, YouVersionClient.get_licenses i d a network
       = .error (.attributeError "coroutine object has no attribute json")) := by
  refine ⟨fun c ps pt p h1 h2 h3 hp => ?_, fun i d a p h1 h2 h3 hp => ?_,
    fun i p h1 h2 h3 hp => ?_, noerr_async_get_languages, noerr_async_get_licenses,
    noerr_async_get_organizations, fun c ps pt h => auth_async_get_languages c ps pt r h,
    fun i d a h => auth_async_get_licenses i d a r h,
    fun i h => auth_async_get_organizations i r h,
    fun c ps pt h1 h2 h3 => ?_, fun i d a h1 h2 h3 => ?_, fun i h1 h2 h3 => ?_,
    fun _ _ _ _ => rfl, fun _ _ _ _ => rfl⟩
  · unfold AsyncYouVersionClient.get_languages
    rw [async_adapter_get_eq_sync]
    simp only [sync_get_pass r h1 h2 h3]
    simp [Except.bind, hp]
  · unfold AsyncYouVersionClient.get_licenses
    rw [async_adapter_get_eq_sync]
    simp only [sync_get_pass r h1 h2 h3]
    simp [Except.bind, hp]
  · unfold AsyncYouVersionClient.get_organizations
    rw [async_adapter_get_eq_sync]
    simp only [sync_get_pass r h1 h2 h3]
    simp [Except.bind, hp]
  · unfold AsyncYouVersionClient.get_languages
    rw [async_adapter_get_eq_sync]
    simp only [sync_get_500 r h1 h2 h3]
    rfl
  · unfold AsyncYouVersionClient.get_licenses
    rw [async_adapter_get_eq_sync]
    simp only [sync_get_500 r h1 h2 h3]
    rfl
  · unfold AsyncYouVersionClient.get_organizations
    rw [async_adapter_get_eq_sync]
    simp only [sync_get_500 r h1 h2 h3]
    rfl

/-- A 404 response carrying a well-formed empty paginated body. -/
def r404data : HTTPResponse :=
  { status_code := 404, body := .obj [("data", .arr [])] }

/-- Counterexample for C5 as stated: a 404 response on the language-list
endpoint of the faithfully executing asynchronous facade is not raised as a
transport exception — with a parseable body the call returns `Ok`. -/
theorem C5_counterexample_404_not_raised :
    AsyncYouVersionClient.get_languages none none none (constNet r404data)
      = .ok (.Ok
          { data := ([] : List Language), next_page_token := none,
            total_count := none }) := rfl

/-- Witness for C5: a 200 response with an empty page returns `Ok`, and a
500 response raises `ServerError`. -/
theorem C5_unmodeled_endpoints_pass_through_witness :
    AsyncYouVersionClient.get_languages none none none
        (constNet { status_code := 200, body := .obj [("data", .arr [])] })
      = .ok (.Ok
          { data := ([] : List Language), next_page_token := none,
            total_count := none }) ∧
    AsyncYouVersionClient.get_licenses 111 "dev" false
        (constNet { status_code := 500 })
      = .error (.serverError ("Server error: " ++ toString 500) 500) :=
  ⟨(C5_unmodeled_endpoints_pass_through
      { status_code := 200, body := .obj [("data", .arr [])] }).1 none none none _
      (by decide) (by decide) (by decide) rfl,
   (C5_unmodeled_endpoints_pass_through { status_code := 500 }).2.2.2.2.2.2.2.2.2.2.1
      111 "dev" false (by decide) (by decide) (by decide)⟩

/-- C6: the verse-of-the-day lookup keyed by day of year (spec-modelled
method, see `YouVersionClient.get_votd`): with a successful 200 response,
`day = 1` and `day = 365` return `Ok` with the VOTD record; with the 400 the
server answers for the out-of-range `day = 999`, the call returns
`Err(ValidationError)` with `field = "day"`. -/
theorem C6_votd_day_lookup :
    (∀ r v, r.status_code = 200 → VerseOfTheDay.model_validate r.body = some v →
       YouVersionClient.get_votd 1 (constNet r) = .ok (.Ok v)) ∧
    (∀ r v, r.status_code = 200 → VerseOfTheDay.model_validate r.body = some v →
       YouVersionClient.get_votd 365 (constNet r) = .ok (.Ok v)) ∧
    (∀ r, r.status_code = 400 → YouVersionClient.get_votd 999 (constNet r)
       = .ok (.Err (.validation
           { field := "day", reason := "Day must be between 1 and 366" }))) := by
  refine ⟨fun r v h hv => ?_, fun r v h hv => ?_, fun r h => ?_⟩
  · unfold YouVersionClient.get_votd
    simp only [sync_get_pass r (by simp [h]) (by simp [h]) (by simp [h])]
    simp [Except.bind, h, hv]
  · unfold YouVersionClient.get_votd
    simp only [sync_get_pass r (by simp [h]) (by simp [h]) (by simp [h])]
    simp [Except.bind, h, hv]
  · unfold YouVersionClient.get_votd
    simp only [sync_get_pass r (by simp [h]) (by simp [h]) (by simp [h])]
    simp [Except.bind, h]

/-- A successful VOTD response for day 1. -/
def r200votd : HTTPResponse :=
  { status_code := 200,
    body := .obj [("day", .num 1), ("passage_id", .str "JHN.3.16")] }

/-- A plain 400 response used by witnesses. -/
def r400 : HTTPResponse := { status_code := 400 }

/-- Witness for C6: day 1 with a concrete VOTD body returns that record, and
day 999 answered 400 returns the `day` validation error. -/
theorem C6_votd_day_lookup_witness :
    YouVersionClient.get_votd 1 (constNet r200votd)
        = .ok (.Ok { day := 1, passage_id := "JHN.3.16" }) ∧
    YouVersionClient.get_votd 999 (constNet r400)
        = .ok (.Err (.validation
            { field := "day", reason := "Day must be between 1 and 366" })) :=
  ⟨C6_votd_day_lookup.1 r200votd { day := 1, passage_id := "JHN.3.16" } rfl rfl,
   C6_votd_day_lookup.2.2 r400 rfl⟩

lemma mapValidate_length {T : Type} (p : Json → Option T) (l : List Json) :
    ∀ l', mapValidate p l = some l' → l'.length = l.length := by
  induction l with
  | nil =>
    intro l' h
    unfold mapValidate at h
    cases h
    rfl
  | cons j rest ih =>
    intro l' h
    unfold mapValidate at h
    split at h
    · cases h
      simp only [List.length_cons]
      rw [ih _ (by assumption)]
    · exact Option.noConfusion h

lemma mapValidate_getElem {T : Type} (p : Json → Option T) (l : List Json) :
    ∀ l', mapValidate p l = some l' → ∀ n : Nat, (l[n]?).bind p = l'[n]? := by
  induction l with
  | nil =>
    intro l' h n
    unfold mapValidate at h
    cases h
    simp
  | cons j rest ih =>
    intro l' h n
    unfold mapValidate at h
    split at h
    · rename_i v vs hv hvs
      cases h
      cases n with
      | zero => simp [hv]
      | succ m => simp [ih vs hvs m]
    · exact Option.noConfusion h

lemma paginated_validate_spec {T : Type} (p : Json → Option T) (j : Json)
    (pr : PaginatedResponse T) (items : List Json)
    (hd : j.getField "data" = some (.arr items))
    (h : PaginatedResponse.model_validate p j = some pr) :
    mapValidate p items = some pr.data ∧
    pr.next_page_token = j.getOptStr "next_page_token" ∧
    pr.total_count = j.getOptInt "total_count" := by
  unfold PaginatedResponse.model_validate at h
  simp only [hd] at h
  cases hm : mapValidate p items <;> simp only [hm] at h
  · exact Option.noConfusion h
  · cases h
    refine ⟨?_, rfl, rfl⟩
    simp [hm]

lemma paginated_claims {T : Type} (p : Json → Option T) (body : Json)
    (pr : PaginatedResponse T) (items : List Json)
    (hm : PaginatedResponse.model_validate p body = some pr)
    (hd : body.getField "data" = some (.arr items)) :
    pr.data.length = items.length ∧
    (∀ n : Nat, (items[n]?).bind p = pr.data[n]?) ∧
    (∀ tok, body.getField "next_page_token" = some (.str tok) →
       pr.next_page_token = some tok) ∧
    (body.getField "next_page_token" = none → pr.next_page_token = none) := by
  obtain ⟨hmap, hpt, _⟩ := paginated_validate_spec p body pr items hd hm
  refine ⟨mapValidate_length p items _ hmap, mapValidate_getElem p items _ hmap,
    fun tok htok => ?_, fun hnone => ?_⟩
  · rw [hpt]
    unfold Json.getOptStr
    rw [htok]
  · rw [hpt]
    unfold Json.getOptStr
    rw [hnone]

lemma bind_ok_inv {T : Type} (x : Except ErrorValue HTTPResponse)
    (k : HTTPResponse → Except ErrorValue (Result T ErrorValue)) (res : Result T ErrorValue)
    (h : x.bind k = .ok res) : ∃ r, x = .ok r ∧ k r = .ok res := by
  cases x with
  | error e => simp [Except.bind] at h
  | ok r => exact ⟨r, rfl, by simpa [Except.bind] using h⟩

lemma sync_get_ok_constNet (r : HTTPResponse) (p : String) (q : Params) (r' : HTTPResponse)
    (h : SyncHTTPAdapter.get (constNet r) p q = .ok r') : r' = r := by
  unfold SyncHTTPAdapter.get constNet at h
  cases hc : SyncHTTPAdapter.check_error_status r <;> simp only [hc] at h
  · exact Except.noConfusion h
  · exact (Except.ok.inj h).symm

lemma versions_ok_inv (lr : String) (lic : Option String) (r : HTTPResponse)
    (pr : PaginatedResponse BibleVersion)
    (h : AsyncYouVersionClient.get_versions lr lic (constNet r) = .ok (.Ok pr)) :
    PaginatedResponse.model_validate BibleVersion.model_validate r.body = some pr := by
  unfold AsyncYouVersionClient.get_versions at h
  rw [async_adapter_get_eq_sync] at h
  obtain ⟨r', hx, hk⟩ := bind_ok_inv _ _ _ h
  rw [sync_get_ok_constNet r _ _ r' hx] at hk
  by_cases h4 : r.status_code = 400
  · simp [h4] at hk
  · simp [h4] at hk
    cases hm : PaginatedResponse.model_validate BibleVersion.model_validate r.body <;>
      simp only [hm] at hk
    · exact Except.noConfusion hk
    · cases hk
      rfl

lemma books_ok_inv (i : Int) (r : HTTPResponse) (pr : PaginatedResponse BibleBook)
    (h : AsyncYouVersionClient.get_books i (constNet r) = .ok (.Ok pr)) :
    PaginatedResponse.model_validate BibleBook.model_validate r.body = some pr := by
  unfold AsyncYouVersionClient.get_books at h
  rw [async_adapter_get_eq_sync] at h
  obtain ⟨r', hx, hk⟩ := bind_ok_inv _ _ _ h
  rw [sync_get_ok_constNet r _ _ r' hx] at hk
  by_cases h4 : r.status_code = 404
  · simp [h4] at hk
  · simp [h4] at hk
    cases hm : PaginatedResponse.model_validate BibleBook.model_validate r.body <;>
      simp only [hm] at hk
    · exact Except.noConfusion hk
    · cases hk
      rfl

lemma chapters_ok_inv (i : Int) (b : String) (r : HTTPResponse)
    (pr : PaginatedResponse BibleChapter)
    (h : AsyncYouVersionClient.get_chapters i b (constNet r) = .ok (.Ok pr)) :
    PaginatedResponse.model_validate BibleChapter.model_validate r.body = some pr := by
  unfold AsyncYouVersionClient.get_chapters at h
  rw [async_adapter_get_eq_sync] at h
  obtain ⟨r', hx, hk⟩ := bind_ok_inv _ _ _ h
  rw [sync_get_ok_constNet r _ _ r' hx] at hk
  by_cases h4 : r.status_code = 404
  · simp [h4] at hk
  · simp [h4] at hk
    cases hm : PaginatedResponse.model_validate BibleChapter.model_validate r.body <;>
      simp only [hm] at hk
    · exact Except.noConfusion hk
    · cases hk
      rfl

lemma verses_ok_inv (i : Int) (b : String) (c : Int) (r : HTTPResponse)
    (pr : PaginatedResponse BibleVerse)
    (h : AsyncYouVersionClient.get_verses i b c (constNet r) = .ok (.Ok pr)) :
    PaginatedResponse.model_validate BibleVerse.model_validate r.body = some pr := by
  unfold AsyncYouVersionClient.get_verses at h
  rw [async_adapter_get_eq_sync] at h
  obtain ⟨r', hx, hk⟩ := bind_ok_inv _ _ _ h
  rw [sync_get_ok_constNet r _ _ r' hx] at hk
  by_cases h4 : r.status_code = 404
  · simp [h4] at hk
  · simp [h4] at hk
    cases hm : PaginatedResponse.model_validate BibleVerse.model_validate r.body <;>
      simp only [hm] at hk
    · exact Except.noConfusion hk
    · cases hk
      rfl

lemma languages_ok_inv (c : Option String) (ps : Option Int) (pt : Option String)
    (r : HTTPResponse) (pr : PaginatedResponse Language)
    (h : AsyncYouVersionClient.get_languages c ps pt (constNet r) = .ok (.Ok pr)) :
    PaginatedResponse.model_validate Language.model_validate r.body = some pr := by
  unfold AsyncYouVersionClient.get_languages at h
  rw [async_adapter_get_eq_sync] at h
  obtain ⟨r', hx, hk⟩ := bind_ok_inv _ _ _ h
  rw [sync_get_ok_constNet r _ _ r' hx] at hk
  cases hm : PaginatedResponse.model_validate Language.model_validate r.body <;>
    simp only [hm] at hk
  · exact Except.noConfusion hk
  · cases hk
    rfl

lemma licenses_ok_inv (i : Int) (d : String) (a : Bool) (r : HTTPResponse)
    (pr : PaginatedResponse License)
    (h : AsyncYouVersionClient.get_licenses i d a (constNet r) = .ok (.Ok pr)) :
    PaginatedResponse.model_validate License.model_validate r.body = some pr := by
  unfold AsyncYouVersionClient.get_licenses at h
  rw [async_adapter_get_eq_sync] at h
  obtain ⟨r', hx, hk⟩ := bind_ok_inv _ _ _ h
  rw [sync_get_ok_constNet r _ _ r' hx] at hk
  cases hm : PaginatedResponse.model_validate License.model_validate r.body <;>
    simp only [hm] at hk
  · exact Except.noConfusion hk
  · cases hk
    rfl

/-- C9: for every paginated endpoint, when the call returns `Ok` the result
preserves the length and element order of the `data` array of the server's
JSON body (element `n` of the result is exactly the validation of element
`n` of the body), and `next_page_token` is the server string exactly when
present and `none` when the server omits it. The six asynchronous conjuncts
carry the content; the six synchronous conjuncts record that the sync twins
never return `Ok` at all — each raises `AttributeError` on the unawaited
adapter coroutine — so the claim holds vacuously for them. -/
theorem C9_pagination_preserved :
    (∀ lr lic r pr items,
       AsyncYouVersionClient.get_versions lr lic (constNet r) = .ok (.Ok pr) →
       r.body.getField "data" = some (.arr items) →
       pr.data.length = items.length ∧
       (∀ n : Nat, (items[n]?).bind BibleVersion.model_validate = pr.data[n]?) ∧
       (∀ tok, r.body.getField "next_page_token" = some (.str tok) →
          pr.next_page_token = some tok) ∧
       (r.body.getField "next_page_token" = none → pr.next_page_token = none)) ∧
    (∀ i r pr items,
       AsyncYouVersionClient.get_books i (constNet r) = .ok (.Ok pr) →
       r.body.getField "data" = some (.arr items) →
       pr.data.length = items.length ∧
       (∀ n : Nat, (items[n]?).bind BibleBook.model_validate = pr.data[n]?) ∧
       (∀ tok, r.body.getField "next_page_token" = some (.str tok) →
          pr.next_page_token = some tok) ∧
       (r.body.getField "next_page_token" = none → pr.next_page_token = none)) ∧
    (∀ i b r pr items,
       AsyncYouVersionClient.get_chapters i b (constNet r) = .ok (.Ok pr) →
       r.body.getField "data" = some (.arr items) →
       pr.data.length = items.length ∧
       (∀ n : Nat, (items[n]?).bind BibleChapter.model_validate = pr.data[n]?) ∧
       (∀ tok, r.body.getField "next_page_token" = some (.str tok) →
          pr.next_page_token = some tok) ∧
       (r.body.getField "next_page_token" = none → pr.next_page_token = none)) ∧
    (∀ i b c r pr items,
       AsyncYouVersionClient.get_verses i b c (constNet r) = .ok (.Ok pr) →
       r.body.getField "data" = some (.arr items) →
       pr.data.length = items.length ∧
       (∀ n : Nat, (items[n]?).bind BibleVerse.model_validate = pr.data[n]?) ∧
       (∀ tok, r.body.getField "next_page_token" = some (.str tok) →
          pr.next_page_token = some tok) ∧
       (r.body.getField "next_page_token" = none → pr.next_page_token = none)) ∧
    (∀ c ps pt r pr items,
       AsyncYouVersionClient.get_languages c ps pt (constNet r) = .ok (.Ok pr) →
       r.body.getField "data" = some (.arr items) →
       pr.data.length = items.length ∧
       (∀ n : Nat, (items[n]?).bind Language.model_validate = pr.data[n]?) ∧
       (∀ tok, r.body.getField "next_page_token" = some (.str tok) →
          pr.next_page_token = some tok) ∧
       (r.body.getField "next_page_token" = none → pr.next_page_token = none)) ∧
    (∀ i d a r pr items,
       AsyncYouVersionClient.get_licenses i d a (constNet r) = .ok (.Ok pr) →
       r.body.getField "data" = some (.arr items) →
       pr.data.length = items.length ∧
       (∀ n : Nat, (items[n]?).bind License.model_validate = pr.data[n]?) ∧
       (∀ tok, r.body.getField "next_page_token" = some (.str tok) →
          pr.next_page_token = some tok) ∧
       (r.body.getField "next_page_token" = none → pr.next_page_token = none)) ∧
    (∀ lr lic network, YouVersionClient.get_versions lr lic network
       = .error (.attributeError "coroutine object has no attribute status_code")) ∧
    (∀ i network, YouVersionClient.get_books i network
       = .error (.attributeError "coroutine object has no attribute status_code")) ∧
    (∀ i b network, YouVersionClient.get_chapters i b network
       = .error (.attributeError "coroutine object has no attribute status_code")) ∧
    (∀ i b c network, YouVersionClient.get_verses i b c network
       = .error (.attributeError "coroutine object has no attribute status_code")) ∧
    (∀ c ps pt network, YouVersionClient.get_languages c ps pt network
       = .error (.attributeError "coroutine object has no attribute json")) ∧
    (∀ i d a network, YouVersionClient.get_licenses i d a network
       = .error (.attributeError "coroutine object has no attribute json")) :=
  ⟨fun lr lic r pr _ h hd =>
     paginated_claims _ _ _ _ (versions_ok_inv lr lic r pr h) hd,
   fun i r pr _ h hd =>
     paginated_claims _ _ _ _ (books_ok_inv i r pr h) hd,
   fun i b r pr _ h hd =>
     paginated_claims _ _ _ _ (chapters_ok_inv i b r pr h) hd,
   fun i b c r pr _ h hd =>
     paginated_claims _ _ _ _ (verses_ok_inv i b c r pr h) hd,
   fun c ps pt r pr _ h hd =>
     paginated_claims _ _ _ _ (languages_ok_inv c ps pt r pr h) hd,
   fun i d a r pr _ h hd =>
     paginated_claims _ _ _ _ (licenses_ok_inv i d a r pr h) hd,
   fun _ _ _ => rfl, fun _ _ => rfl, fun _ _ _ => rfl, fun _ _ _ _ => rfl,
   fun _ _ _ _ => rfl, fun _ _ _ _ => rfl⟩

/-- A one-element language body carrying a next-page token. -/
def langJson : Json :=
  .obj [("id", .str "en"), ("language", .str "eng"), ("text_direction", .str "ltr")]

/-- A 200 language-list response used by the C9 witness. -/
def r200langs : HTTPResponse :=
  { status_code := 200,
    body := .obj [("data", .arr [langJson]), ("next_page_token", .str "tok")] }

/-- The record the asynchronous language-list call parses out of
`r200langs`. -/
def prLang : PaginatedResponse Language :=
  { data := [{ id := "en", language := "eng", text_direction := "ltr" }],
    next_page_token := some "tok", total_count := none }

/-- Witness for C9: on a concrete one-element body the parsed page has the
same length and the token round-trips. -/
theorem C9_pagination_preserved_witness :
    prLang.data.length = [langJson].length ∧ prLang.next_page_token = some "tok" :=
  have h := C9_pagination_preserved.2.2.2.2.1 none none none r200langs prLang [langJson]
    rfl rfl
  ⟨h.1, h.2.2.1 "tok" rfl⟩

end YouVersion
